import Mathlib

/-!
Verification of the analytics enhancement and opportunity-detection engine of
the `mcp-server-gsc` repository against its natural-language specification.

The TypeScript source is shallowly embedded in Lean:
JavaScript numbers are modelled as rationals (`ℚ`), optional fields as
`Option`, fallible upstream calls as an explicit result type, and the stable
`Array.prototype.sort` as `List.insertionSort` (a stable sort; any stable sort
by the same total preorder yields the same list).  The upstream network fetch
is an external collaborator and enters the model as an explicit argument.
-/

namespace GSC

/-! ## JavaScript primitives over the rational embedding -/

/-- Truthiness of an optional JavaScript string: `undefined` and the empty
string are falsy, every other string is truthy. -/
def strTruthy : Option String → Bool
  | some s => !s.isEmpty
  | none => false

/-- The JavaScript expression `x || d` for an optional number `x`: both
`undefined` and `0` fall back to the default `d`. -/
def jsNumOr (o : Option ℤ) (d : ℤ) : ℤ :=
  match o with
  | some n => if n = 0 then d else n
  | none => d

/-- `Math.round`: round to the nearest integer, halves toward positive
infinity. -/
def jsRound (x : ℚ) : ℤ :=
  Int.floor (x + 1/2)

/-- `Number(x.toFixed(2))`: round to two decimal places, halves toward
positive infinity. -/
def round2 (x : ℚ) : ℚ :=
  (Int.floor (x * 100 + 1/2) : ℚ) / 100

/-- `Number(x.toFixed(1))`: round to one decimal place, halves toward
positive infinity. -/
def round1 (x : ℚ) : ℚ :=
  (Int.floor (x * 10 + 1/2) : ℚ) / 10

/-- Does the character list `needle` occur at the head of the second list? -/
def matchesAt : List Char → List Char → Bool
  | [], _ => true
  | _ :: _, [] => false
  | a :: as, b :: bs => a == b && matchesAt as bs

/-- Does the character list `needle` occur contiguously anywhere in the
second list?  Embeds `String.prototype.includes`. -/
def containsSeq (needle : List Char) : List Char → Bool
  | [] => needle.isEmpty
  | b :: bs => matchesAt needle (b :: bs) || containsSeq needle bs

/-- `s.toLowerCase()` viewed as a character list (ASCII lowering, which is
all the permission check needs). -/
def toLowerChars (s : String) : List Char :=
  s.data.map Char.toLower

/-! ## Data model (src/search-console.ts) -/

/-- Row data from the Search Analytics API response
(`SearchAnalyticsRow`, search-console.ts lines 12-18). -/
structure SearchAnalyticsRow where
  keys : Option (List String) := none
  clicks : Option ℚ := none
  impressions : Option ℚ := none
  ctr : Option ℚ := none
  position : Option ℚ := none

/-- The three-tier opportunity classification used by `QuickWin`. -/
inductive OpportunityTier where
  | High
  | Medium
  | Low
deriving DecidableEq, Repr

/-- Quick win opportunity identified from search data
(`QuickWin`, search-console.ts lines 23-35). -/
structure QuickWin where
  query : String
  page : String
  currentPosition : ℚ
  impressions : ℚ
  currentClicks : ℚ
  currentCtr : ℚ
  potentialClicks : ℚ
  additionalClicks : ℚ
  estimatedValue : ℚ
  opportunity : OpportunityTier
  recommendation : String

/-- Fully resolved detection thresholds (`QuickWinsThresholds` after the
destructuring defaults in `detectQuickWins` have been applied). -/
structure QuickWinsThresholds where
  minImpressions : ℚ
  maxCtr : ℚ
  positionRangeMin : ℚ
  positionRangeMax : ℚ
  targetCtr : ℚ
  estimatedClickValue : ℚ
  conversionRate : ℚ

/-- `Partial<QuickWinsThresholds>` as passed by callers: any subset of the
seven fields may be present. -/
structure PartialQuickWinsThresholds where
  minImpressions : Option ℚ := none
  maxCtr : Option ℚ := none
  positionRangeMin : Option ℚ := none
  positionRangeMax : Option ℚ := none
  targetCtr : Option ℚ := none
  estimatedClickValue : Option ℚ := none
  conversionRate : Option ℚ := none

/-- The destructuring defaults at the top of `detectQuickWins`
(search-console.ts lines 275-283). -/
def resolveThresholds (p : PartialQuickWinsThresholds) : QuickWinsThresholds where
  minImpressions := p.minImpressions.getD 50
  maxCtr := p.maxCtr.getD 2
  positionRangeMin := p.positionRangeMin.getD 4
  positionRangeMax := p.positionRangeMax.getD 10
  targetCtr := p.targetCtr.getD 5
  estimatedClickValue := p.estimatedClickValue.getD 1
  conversionRate := p.conversionRate.getD (3/100)

/-- The empty `Partial<QuickWinsThresholds>` object (the parameter default
of `detectQuickWins`). -/
def emptyThresholds : PartialQuickWinsThresholds := {}

/-- The fully defaulted threshold profile. -/
def defaultThresholds : QuickWinsThresholds :=
  resolveThresholds emptyThresholds

/-! ## Opportunity detection (src/search-console.ts lines 271-364) -/

/-- `generateRecommendation` (search-console.ts lines 344-364): concatenate
the applicable advice fragments with a period-space separator, with a generic
fallback when none applies. -/
def generateRecommendation (position : ℚ) (ctr : ℚ) (impressions : ℚ) : String :=
  let recommendations : List String :=
    (if position ≥ 4 ∧ position ≤ 6 then
      ["Improve content depth and relevance to reach top 3"]
    else if position > 6 ∧ position ≤ 10 then
      ["Focus on on-page SEO and internal linking"]
    else []) ++
    (if ctr < 1 then
      ["Optimize title tag and meta description for higher CTR"]
    else []) ++
    (if impressions ≥ 1000 then
      ["High-volume keyword - prioritize optimization"]
    else [])
  if recommendations.length > 0 then
    String.intercalate ". " recommendations
  else
    "Review content for optimization opportunities"

/-- The row filter of `detectQuickWins` (search-console.ts lines 286-297):
missing fields default to `0`, click-through-rate is scaled to a percentage,
and the row is kept only when all four threshold comparisons hold. -/
def passesFilter (t : QuickWinsThresholds) (row : SearchAnalyticsRow) : Bool :=
  let impressions := row.impressions.getD 0
  let ctr := (row.ctr.getD 0) * 100
  let position := row.position.getD 0
  decide (impressions ≥ t.minImpressions) && decide (ctr ≤ t.maxCtr) &&
    decide (position ≥ t.positionRangeMin) && decide (position ≤ t.positionRangeMax)

/-- The mapping pass of `detectQuickWins` (search-console.ts lines 298-337):
derive the projected metrics, the tier and the recommendation for one row
that passed the filter. -/
def toQuickWin (t : QuickWinsThresholds) (row : SearchAnalyticsRow) : QuickWin :=
  let impressions := row.impressions.getD 0
  let currentClicks := row.clicks.getD 0
  let currentCtr := (row.ctr.getD 0) * 100
  let position := row.position.getD 0
  let potentialClicks : ℚ := (jsRound (impressions * t.targetCtr / 100) : ℤ)
  let additionalClicks : ℚ := max 0 (potentialClicks - currentClicks)
  let estimatedValue :=
    round2 (additionalClicks * t.estimatedClickValue * (1 + t.conversionRate))
  let opportunity :=
    if additionalClicks ≥ 100 then OpportunityTier.High
    else if additionalClicks ≥ 25 then OpportunityTier.Medium
    else OpportunityTier.Low
  { query := ((row.keys.getD [])[0]?).getD "N/A"
    page := ((row.keys.getD [])[1]?).getD "N/A"
    currentPosition := round1 position
    impressions := impressions
    currentClicks := currentClicks
    currentCtr := round2 currentCtr
    potentialClicks := potentialClicks
    additionalClicks := additionalClicks
    estimatedValue := estimatedValue
    opportunity := opportunity
    recommendation := generateRecommendation position currentCtr impressions }

/-- The sort order of the final pass of `detectQuickWins`
(search-console.ts line 338): descending by `additionalClicks`. -/
def qwLE (a b : QuickWin) : Prop :=
  b.additionalClicks ≤ a.additionalClicks

instance : DecidableRel qwLE :=
  fun a b => inferInstanceAs (Decidable (b.additionalClicks ≤ a.additionalClicks))

instance : IsTotal QuickWin qwLE :=
  ⟨fun a b => le_total b.additionalClicks a.additionalClicks⟩

instance : IsTrans QuickWin qwLE :=
  ⟨fun _ _ _ h1 h2 => le_trans h2 h1⟩

/-- `detectQuickWins` on a resolved threshold profile: filter, map, then the
stable descending sort (search-console.ts lines 285-339).  The stable
JavaScript `Array.prototype.sort` is modelled by `List.insertionSort`. -/
def detectQuickWinsCore (t : QuickWinsThresholds) (rows : List SearchAnalyticsRow) :
    List QuickWin :=
  List.insertionSort qwLE
    ((rows.filter (fun row => passesFilter t row)).map (fun row => toQuickWin t row))

/-- `detectQuickWins` (search-console.ts lines 271-339) as called with a
partial threshold object: resolve the defaults, then run the pipeline. -/
def detectQuickWins (rows : List SearchAnalyticsRow)
    (thresholds : PartialQuickWinsThresholds) : List QuickWin :=
  detectQuickWinsCore (resolveThresholds thresholds) rows

/-! ## Request model and the pattern filter (src/search-console.ts lines 212-261) -/

/-- One dimension filter clause of the upstream query request. -/
structure FilterClause where
  dimension : String
  operator : String
  expression : String
deriving DecidableEq, Repr

/-- One dimension filter group of the upstream query request. -/
structure FilterGroup where
  groupType : String
  filters : List FilterClause
deriving DecidableEq, Repr

/-- The search analytics query request body, with every field optional as in
the upstream API type. -/
structure SearchAnalyticsQueryRequest where
  startDate : Option String := none
  endDate : Option String := none
  dimensions : Option (List String) := none
  searchType : Option String := none
  aggregationType : Option String := none
  rowLimit : Option ℤ := none
  startRow : Option ℤ := none
  dataState : Option String := none
  dimensionFilterGroups : Option (List FilterGroup) := none
deriving DecidableEq, Repr

/-- `EnhancedSearchAnalyticsOptions` (search-console.ts lines 55-59). -/
structure EnhancedOptions where
  regexFilter : Option String := none
  enableQuickWins : Option Bool := none
  quickWinsThresholds : Option PartialQuickWinsThresholds := none

/-- The `metadata` object of the enhanced response
(search-console.ts lines 44-49). -/
structure ResponseMetadata where
  regexFilterApplied : Bool
  quickWinsEnabled : Bool
  rowLimit : ℤ
  totalRows : ℕ

/-- `EnhancedSearchAnalyticsResponse` (search-console.ts lines 40-50). -/
structure EnhancedSearchAnalyticsResponse where
  rows : List SearchAnalyticsRow
  responseAggregationType : Option String
  quickWins : Option (List QuickWin)
  metadata : ResponseMetadata

/-- `enhancedRequestBody.dimensions?.includes('query')`: false when the
dimension list is absent. -/
def dimensionsIncludeQuery (req : SearchAnalyticsQueryRequest) : Bool :=
  (req.dimensions.getD []).contains "query"

/-- The request transformation of `enhancedSearchAnalytics`
(search-console.ts lines 222-237): when the regex option is truthy and the
query dimension was requested, append one filter group holding the single
`includingRegex` clause to whatever groups are already present. -/
def applyRegexFilter (regexFilter : Option String)
    (req : SearchAnalyticsQueryRequest) : SearchAnalyticsQueryRequest :=
  if strTruthy regexFilter && dimensionsIncludeQuery req then
    { req with
      dimensionFilterGroups :=
        some (req.dimensionFilterGroups.getD [] ++
          [{ groupType := "and"
             filters := [{ dimension := "query"
                           operator := "includingRegex"
                           expression := regexFilter.getD "" }] }]) }
  else req

/-- The response construction of `enhancedSearchAnalytics`
(search-console.ts lines 239-260).  The upstream fetch is an external
collaborator; its result (the row list and the aggregation type returned for
the enhanced request) enters the model as explicit arguments. -/
def enhancedSearchAnalytics (requestBody : SearchAnalyticsQueryRequest)
    (options : EnhancedOptions) (upstreamRows : List SearchAnalyticsRow)
    (upstreamAggregationType : Option String) : EnhancedSearchAnalyticsResponse :=
  let enhancedRequestBody := applyRegexFilter options.regexFilter requestBody
  let rows := upstreamRows
  { rows := rows
    responseAggregationType := upstreamAggregationType
    metadata :=
      { regexFilterApplied := strTruthy options.regexFilter
        quickWinsEnabled := options.enableQuickWins.getD false
        rowLimit := jsNumOr enhancedRequestBody.rowLimit 1000
        totalRows := rows.length }
    quickWins :=
      if options.enableQuickWins.getD false && decide (0 < rows.length) then
        some (detectQuickWins rows (options.quickWinsThresholds.getD emptyThresholds))
      else none }

/-! ## Query builder (src/index.ts lines 62-102) -/

/-- The filter-relevant slice of the validated `search_analytics` arguments. -/
structure SearchAnalyticsArgs where
  pageFilter : Option String := none
  queryFilter : Option String := none
  countryFilter : Option String := none
  deviceFilter : Option String := none
  filterOperator : String := "equals"

/-- One conditional push of `buildFilterGroups`: the clause list contributed
by a single simple filter, empty when the filter value is falsy. -/
def clauseFor (filterValue : Option String) (d op : String) : List FilterClause :=
  match filterValue with
  | some s => if s.isEmpty then [] else [⟨d, op, s⟩]
  | none => []

/-- `buildFilterGroups` (index.ts lines 62-102): push one clause per truthy
simple filter in source order, country and device always with the `equals`
operator, then wrap the clauses in a single `and` group, or return nothing at
all when no clause was pushed. -/
def buildFilterGroups (args : SearchAnalyticsArgs) : Option (List FilterGroup) :=
  let filters : List FilterClause :=
    clauseFor args.pageFilter "page" args.filterOperator ++
    clauseFor args.queryFilter "query" args.filterOperator ++
    clauseFor args.countryFilter "country" "equals" ++
    clauseFor args.deviceFilter "device" "equals"
  if filters.isEmpty then none
  else some [{ groupType := "and", filters := filters }]

/-- Modelled from the spec wording for the query builder output shape: no
filter-group value when none of the four simple filters is present, else
exactly one group of type `and` whose clauses appear in the fixed order page,
query, country, device, with country and device forced to the `equals`
operator and page and query using the shared operator.  A supplied empty
string counts as absent, matching JavaScript truthiness. -/
def buildFilterGroupsSpec (args : SearchAnalyticsArgs) : Option (List FilterGroup) :=
  if strTruthy args.pageFilter || strTruthy args.queryFilter ||
      strTruthy args.countryFilter || strTruthy args.deviceFilter then
    some [{ groupType := "and"
            filters :=
              (if strTruthy args.pageFilter then
                [⟨"page", args.filterOperator, args.pageFilter.getD ""⟩] else []) ++
              (if strTruthy args.queryFilter then
                [⟨"query", args.filterOperator, args.queryFilter.getD ""⟩] else []) ++
              (if strTruthy args.countryFilter then
                [⟨"country", "equals", args.countryFilter.getD ""⟩] else []) ++
              (if strTruthy args.deviceFilter then
                [⟨"device", "equals", args.deviceFilter.getD ""⟩] else []) }]
  else none

/-! ## Permission fallback (src/search-console.ts lines 163-181) -/

/-- Outcome of an upstream call: a value or a thrown error carrying a
message. -/
inductive JsResult (α : Type) where
  | ok (value : α)
  | error (message : String)
deriving DecidableEq, Repr

/-- The permission test of `withPermissionFallback`
(search-console.ts lines 171-173): lowercase the message and look for the
substrings `permission` or `403`. -/
def isPermissionMessage (msg : String) : Bool :=
  containsSeq "permission".data (toLowerChars msg) ||
    containsSeq "403".data (toLowerChars msg)

/-- `withPermissionFallback` (search-console.ts lines 163-181), instrumented
with the number of times the fallback operation is invoked: a primary success
is returned directly, a permission-flavoured failure triggers the fallback
exactly once and returns its outcome unchanged, and every other failure is
re-thrown wrapped with the call context. -/
def withPermissionFallback {α : Type} (primary : JsResult α) (fallback : JsResult α)
    (context : String) : JsResult α × ℕ :=
  match primary with
  | .ok v => (.ok v, 0)
  | .error msg =>
    if isPermissionMessage msg then (fallback, 1)
    else (.error ("[GSC] " ++ context ++ " failed: " ++ msg), 0)

end GSC

namespace GSC

/-! ## Helper lemmas -/

/-- Unfolding of the detection row filter into its four comparisons. -/
theorem passesFilter_eq_true_iff (t : QuickWinsThresholds) (row : SearchAnalyticsRow) :
    passesFilter t row = true ↔
      t.minImpressions ≤ row.impressions.getD 0 ∧
      (row.ctr.getD 0) * 100 ≤ t.maxCtr ∧
      t.positionRangeMin ≤ row.position.getD 0 ∧
      row.position.getD 0 ≤ t.positionRangeMax := by
  simp [passesFilter, and_assoc, ge_iff_le]

/-! ## Claim theorems -/

/-- C2: a row enters the opportunity computation of `detectQuickWins` exactly
when its impressions (default 0) reach `minImpressions`, its percentage
click-through-rate (default 0) is at most `maxCtr`, and its position
(default 0) lies within the inclusive position range; with the default
`minImpressions = 50`, a row whose impressions value is 0 is always
excluded. -/
theorem detection_filter_iff (t : QuickWinsThresholds) (row : SearchAnalyticsRow) :
    (passesFilter t row = true ↔
      t.minImpressions ≤ row.impressions.getD 0 ∧
      (row.ctr.getD 0) * 100 ≤ t.maxCtr ∧
      t.positionRangeMin ≤ row.position.getD 0 ∧
      row.position.getD 0 ≤ t.positionRangeMax) ∧
    (detectQuickWinsCore t [row] ≠ [] ↔ passesFilter t row = true) ∧
    (t.minImpressions = 50 → row.impressions.getD 0 = 0 → passesFilter t row = false) := by
  refine ⟨passesFilter_eq_true_iff t row, ?_, fun h50 h0 => ?_⟩
  · cases hb : passesFilter t row <;>
      simp [detectQuickWinsCore, hb, List.insertionSort, List.orderedInsert]
  · cases hb : passesFilter t row with
    | false => rfl
    | true =>
      obtain ⟨h1, -, -, -⟩ := (passesFilter_eq_true_iff t row).1 hb
      rw [h50, h0] at h1
      norm_num at h1

/-- Witness for C2: a row with no impressions value is rejected under the
default thresholds. -/
theorem detection_filter_iff_witness :
    passesFilter defaultThresholds { position := some 5 } = false :=
  (detection_filter_iff defaultThresholds { position := some 5 }).2.2 rfl rfl

/-- C7: with an inverted position range (minimum above maximum) detection
returns the empty opportunity list on every row set, raising no error. -/
theorem detection_inverted_range_empty (t : QuickWinsThresholds)
    (rows : List SearchAnalyticsRow) (h : t.positionRangeMax < t.positionRangeMin) :
    detectQuickWinsCore t rows = [] := by
  have hf : rows.filter (fun row => passesFilter t row) = [] := by
    rw [List.filter_eq_nil_iff]
    intro row _ hpass
    obtain ⟨-, -, h1, h2⟩ := (passesFilter_eq_true_iff t row).1 hpass
    exact absurd (le_trans h1 h2) (not_le.mpr h)
  simp [detectQuickWinsCore, hf, List.insertionSort]

/-- Witness for C7: a profile with position range [10, 4] yields no
opportunities on a non-empty row set. -/
theorem detection_inverted_range_empty_witness :
    detectQuickWinsCore
      { minImpressions := 50, maxCtr := 2, positionRangeMin := 10,
        positionRangeMax := 4, targetCtr := 5, estimatedClickValue := 1,
        conversionRate := 3/100 }
      [{ impressions := some 1000, ctr := some 0, position := some 7 }] = [] :=
  detection_inverted_range_empty _ _ (by norm_num)

/-- C9: detection is deterministic — equal row sets and equal threshold
profiles produce equal output lists; the embedded detection pipeline reads
nothing besides its two arguments. -/
theorem detectQuickWins_deterministic (rows₁ rows₂ : List SearchAnalyticsRow)
    (p₁ p₂ : PartialQuickWinsThresholds) (hrows : rows₁ = rows₂) (hp : p₁ = p₂) :
    detectQuickWins rows₁ p₁ = detectQuickWins rows₂ p₂ := by
  rw [hrows, hp]

/-- Witness for C9: two runs on the same concrete input agree. -/
theorem detectQuickWins_deterministic_witness :
    detectQuickWins [{ impressions := some 100 }] emptyThresholds =
      detectQuickWins [{ impressions := some 100 }] emptyThresholds :=
  detectQuickWins_deterministic _ _ _ _ rfl rfl

/-- C10: the emitted opportunity takes its query from the first dimension key
and its page from the second, each falling back to the literal string N/A
when the keys array is missing or too short, so a keyless row still yields a
well-formed opportunity. -/
theorem quickWin_keys_defaults (t : QuickWinsThresholds) (row : SearchAnalyticsRow) :
    ((toQuickWin t row).query =
      (match row.keys with
       | some ks => (ks[0]?).getD "N/A"
       | none => "N/A")) ∧
    ((toQuickWin t row).page =
      (match row.keys with
       | some ks => (ks[1]?).getD "N/A"
       | none => "N/A")) ∧
    (row.keys = none →
      (toQuickWin t row).query = "N/A" ∧ (toQuickWin t row).page = "N/A") := by
  rcases hk : row.keys with _ | ks <;> simp [toQuickWin, hk]

/-- Witness for C10: a row with no keys array produces the N/A defaults. -/
theorem quickWin_keys_defaults_witness :
    (toQuickWin defaultThresholds {}).query = "N/A" ∧
      (toQuickWin defaultThresholds {}).page = "N/A" :=
  (quickWin_keys_defaults defaultThresholds {}).2.2 rfl

end GSC

namespace GSC

/-- C3: for an included row the derived opportunity carries
`potentialClicks = round(impressions * targetCtr / 100)`,
`additionalClicks = max(0, potentialClicks - clicks)`,
`estimatedValue = round2(additionalClicks * estimatedClickValue *
(1 + conversionRate))`, and the fixed tier cutoffs at 100 and 25
additional clicks. -/
theorem quickWin_metrics (t : QuickWinsThresholds) (row : SearchAnalyticsRow)
    (h : passesFilter t row = true) :
    (toQuickWin t row).potentialClicks =
      ((jsRound ((row.impressions.getD 0) * t.targetCtr / 100) : ℤ) : ℚ) ∧
    (toQuickWin t row).additionalClicks =
      max 0 ((toQuickWin t row).potentialClicks - row.clicks.getD 0) ∧
    (toQuickWin t row).estimatedValue =
      round2 ((toQuickWin t row).additionalClicks * t.estimatedClickValue *
        (1 + t.conversionRate)) ∧
    ((toQuickWin t row).opportunity = OpportunityTier.High ↔
      100 ≤ (toQuickWin t row).additionalClicks) ∧
    ((toQuickWin t row).opportunity = OpportunityTier.Medium ↔
      25 ≤ (toQuickWin t row).additionalClicks ∧
        (toQuickWin t row).additionalClicks < 100) ∧
    ((toQuickWin t row).opportunity = OpportunityTier.Low ↔
      (toQuickWin t row).additionalClicks < 25) := by
  have hop : (toQuickWin t row).opportunity =
      (if (toQuickWin t row).additionalClicks ≥ 100 then OpportunityTier.High
       else if (toQuickWin t row).additionalClicks ≥ 25 then OpportunityTier.Medium
       else OpportunityTier.Low) := rfl
  refine ⟨rfl, rfl, rfl, ?_, ?_, ?_⟩ <;> rw [hop] <;>
    split_ifs with h1 h2 <;> simp_all [ge_iff_le] <;> linarith

/-- Witness for C3: the spec example row (1250 impressions, 15 clicks, ctr
0.012, position 6.2) under default thresholds yields 63 potential clicks, 48
additional clicks, tier Medium and estimated value 49.44. -/
theorem quickWin_metrics_witness :
    (toQuickWin defaultThresholds
      { keys := some ["q", "p"], clicks := some 15, impressions := some 1250,
        ctr := some (12/1000), position := some (62/10) }).potentialClicks = 63 ∧
    (toQuickWin defaultThresholds
      { keys := some ["q", "p"], clicks := some 15, impressions := some 1250,
        ctr := some (12/1000), position := some (62/10) }).additionalClicks = 48 ∧
    (toQuickWin defaultThresholds
      { keys := some ["q", "p"], clicks := some 15, impressions := some 1250,
        ctr := some (12/1000), position := some (62/10) }).opportunity =
      OpportunityTier.Medium ∧
    (toQuickWin defaultThresholds
      { keys := some ["q", "p"], clicks := some 15, impressions := some 1250,
        ctr := some (12/1000), position := some (62/10) }).estimatedValue = 49.44 := by
  have hp : passesFilter defaultThresholds
      { keys := some ["q", "p"], clicks := some 15, impressions := some 1250,
        ctr := some (12/1000), position := some (62/10) } = true := by
    norm_num [passesFilter, defaultThresholds, resolveThresholds, emptyThresholds]
  obtain ⟨h1, h2, h3, -, h5, -⟩ := quickWin_metrics defaultThresholds _ hp
  have hpc : (toQuickWin defaultThresholds
      { keys := some ["q", "p"], clicks := some 15, impressions := some 1250,
        ctr := some (12/1000), position := some (62/10) }).potentialClicks = 63 := by
    rw [h1]
    norm_num [jsRound, defaultThresholds, resolveThresholds, emptyThresholds]
  have hac : (toQuickWin defaultThresholds
      { keys := some ["q", "p"], clicks := some 15, impressions := some 1250,
        ctr := some (12/1000), position := some (62/10) }).additionalClicks = 48 := by
    rw [h2, hpc]
    norm_num [max_def]
  refine ⟨hpc, hac, h5.mpr ⟨by rw [hac]; norm_num, by rw [hac]; norm_num⟩, ?_⟩
  rw [h3, hac]
  norm_num [round2, defaultThresholds, resolveThresholds, emptyThresholds]

/-- C5: a truthy pattern with the query dimension requested appends exactly
one extra filter group holding the single `includingRegex` clause on the
query dimension, leaving every existing clause and every other request field
unchanged; with the query dimension absent the request is returned untouched
and no error is raised. -/
theorem applyRegexFilter_spec (s : String) (req : SearchAnalyticsQueryRequest)
    (hs : s.isEmpty = false) :
    (dimensionsIncludeQuery req = true →
      applyRegexFilter (some s) req =
        { req with
          dimensionFilterGroups :=
            some (req.dimensionFilterGroups.getD [] ++
              [{ groupType := "and"
                 filters := [{ dimension := "query", operator := "includingRegex",
                               expression := s }] }]) }) ∧
    (dimensionsIncludeQuery req = false → applyRegexFilter (some s) req = req) := by
  constructor <;> intro hd <;> simp [applyRegexFilter, strTruthy, hs, hd]

/-- Witness for C5: with dimensions equal to the single entry page list, the
pattern is silently ignored and the request comes back unchanged. -/
theorem applyRegexFilter_spec_witness :
    applyRegexFilter (some "seo") { dimensions := some ["page"] } =
      { dimensions := some ["page"] } :=
  (applyRegexFilter_spec "seo" { dimensions := some ["page"] } rfl).2 (by decide)

/-- C8: when the primary call fails with a message containing
permission-related text (after lowercasing), the fallback is invoked exactly
once and its outcome is returned unchanged; any other failure is re-thrown
wrapped with the call context and the fallback is never invoked. -/
theorem withPermissionFallback_spec {α : Type} (fallback : JsResult α)
    (context msg : String) :
    (isPermissionMessage msg = true →
      withPermissionFallback (JsResult.error msg) fallback context = (fallback, 1)) ∧
    (isPermissionMessage msg = false →
      withPermissionFallback (JsResult.error msg) fallback context =
        (JsResult.error ("[GSC] " ++ context ++ " failed: " ++ msg), 0)) := by
  constructor <;> intro h <;> simp [withPermissionFallback, h]

/-- Witness for C8: an upper-case PERMISSION message triggers the fallback
exactly once and its success is returned, while an unrelated message is
wrapped with the call context and the fallback stays uninvoked. -/
theorem withPermissionFallback_spec_witness :
    withPermissionFallback (JsResult.error "User does not have PERMISSION")
      (JsResult.ok (3 : ℕ)) "searchAnalytics" = (JsResult.ok 3, 1) ∧
    withPermissionFallback (JsResult.error "quota exceeded")
      (JsResult.ok (3 : ℕ)) "searchAnalytics" =
      (JsResult.error "[GSC] searchAnalytics failed: quota exceeded", 0) :=
  ⟨(withPermissionFallback_spec (JsResult.ok 3) "searchAnalytics"
      "User does not have PERMISSION").1 (by decide),
   (withPermissionFallback_spec (JsResult.ok 3) "searchAnalytics"
      "quota exceeded").2 (by decide)⟩

end GSC

namespace GSC

/-- The conditional clause push, restated through string truthiness. -/
theorem clauseFor_eq (o : Option String) (d op : String) :
    clauseFor o d op = if strTruthy o then [⟨d, op, o.getD ""⟩] else [] := by
  cases o with
  | none => simp [clauseFor, strTruthy]
  | some s => cases hs : s.isEmpty <;> simp [clauseFor, strTruthy, hs]

/-- C1 counterexample: with a pattern supplied but the query dimension absent
from the requested dimension list, the pattern filter is silently skipped,
yet the metadata still reports `regexFilterApplied = true`; the claim demands
false in exactly this situation. -/
theorem regexFilterApplied_cex :
    strTruthy (some "seo") = true ∧
    dimensionsIncludeQuery { dimensions := some ["page"] } = false ∧
    (enhancedSearchAnalytics { dimensions := some ["page"] }
      { regexFilter := some "seo" } [] none).metadata.regexFilterApplied = true := by
  refine ⟨by decide, by decide, rfl⟩

/-- C1 amended: the metadata field `regexFilterApplied` records only whether
a truthy (non-empty) pattern expression was supplied; it does not consult the
requested dimension list, so it is true even when the pattern was silently
ignored because the query dimension is absent. -/
theorem regexFilterApplied_eq_truthy (req : SearchAnalyticsQueryRequest)
    (options : EnhancedOptions) (rows : List SearchAnalyticsRow)
    (agg : Option String) :
    (enhancedSearchAnalytics req options rows agg).metadata.regexFilterApplied =
      strTruthy options.regexFilter ∧
    ((enhancedSearchAnalytics req options rows agg).metadata.regexFilterApplied = true ↔
      ∃ s, options.regexFilter = some s ∧ s ≠ "") := by
  refine ⟨rfl, ?_⟩
  cases ho : options.regexFilter with
  | none => simp [enhancedSearchAnalytics, strTruthy, ho]
  | some s =>
    simp [enhancedSearchAnalytics, strTruthy, ho, Bool.eq_false_iff,
      String.isEmpty_iff]

/-- C6: the query builder output equals the spec-shaped output — no
filter-group value when none of the four simple filters is present, else one
single `and` group with clauses in the fixed order page, query, country,
device, country and device forced to the `equals` operator and page and
query carrying the shared operator. -/
theorem buildFilterGroups_spec_eq (args : SearchAnalyticsArgs) :
    buildFilterGroups args = buildFilterGroupsSpec args ∧
    (buildFilterGroups args = none ↔
      strTruthy args.pageFilter = false ∧ strTruthy args.queryFilter = false ∧
      strTruthy args.countryFilter = false ∧ strTruthy args.deviceFilter = false) := by
  cases hp : strTruthy args.pageFilter <;> cases hq : strTruthy args.queryFilter <;>
    cases hc : strTruthy args.countryFilter <;> cases hd : strTruthy args.deviceFilter <;>
    simp [buildFilterGroups, buildFilterGroupsSpec, clauseFor_eq, hp, hq, hc, hd]

end GSC

namespace GSC

/-- C4: the opportunity list is sorted descending by additional clicks, ties
keep the relative order in which their rows passed the filtering pass (the
filtered subsequence with any fixed additional-clicks value survives the sort
unchanged), and the concrete profile [10, 100, 100, 25] comes out as
[100, 100, 25, 10] with the two 100-valued opportunities in original order. -/
theorem detectQuickWins_sorted_stable (t : QuickWinsThresholds)
    (rows : List SearchAnalyticsRow) (v : ℚ) :
    (detectQuickWinsCore t rows).Pairwise qwLE ∧
    (detectQuickWinsCore t rows).filter (fun q => decide (q.additionalClicks = v)) =
      ((rows.filter (fun row => passesFilter t row)).map
        (fun row => toQuickWin t row)).filter
        (fun q => decide (q.additionalClicks = v)) ∧
    (detectQuickWinsCore defaultThresholds
      [{ keys := some ["a"], clicks := some 0, impressions := some 200,
         ctr := some 0, position := some 5 },
       { keys := some ["b"], clicks := some 0, impressions := some 2000,
         ctr := some 0, position := some 5 },
       { keys := some ["c"], clicks := some 0, impressions := some 2000,
         ctr := some 0, position := some 5 },
       { keys := some ["d"], clicks := some 0, impressions := some 500,
         ctr := some 0, position := some 5 }]).map
      (fun q => (q.query, q.additionalClicks)) =
      [("b", 100), ("c", 100), ("d", 25), ("a", 10)] := by
  refine ⟨List.sorted_insertionSort qwLE _, ?_, ?_⟩
  · have key : ∀ (l : List QuickWin),
        (List.insertionSort qwLE l).filter (fun q => decide (q.additionalClicks = v)) =
          l.filter (fun q => decide (q.additionalClicks = v)) := by
      intro l
      have hpw : (l.filter (fun q => decide (q.additionalClicks = v))).Pairwise qwLE := by
        apply List.pairwise_of_forall_mem_list
        intro a ha b hb
        have ha2 : a.additionalClicks = v :=
          of_decide_eq_true (List.mem_filter.mp ha).2
        have hb2 : b.additionalClicks = v :=
          of_decide_eq_true (List.mem_filter.mp hb).2
        show b.additionalClicks ≤ a.additionalClicks
        rw [ha2, hb2]
      have hsub : List.Sublist (l.filter (fun q => decide (q.additionalClicks = v)))
          (List.insertionSort qwLE l) :=
        List.sublist_insertionSort hpw (List.filter_sublist l)
      have hsub2 : List.Sublist (l.filter (fun q => decide (q.additionalClicks = v)))
          ((List.insertionSort qwLE l).filter (fun q => decide (q.additionalClicks = v))) := by
        have h3 := hsub.filter (fun q => decide (q.additionalClicks = v))
        simpa [List.filter_filter] using h3
      have hlen : ((List.insertionSort qwLE l).filter
            (fun q => decide (q.additionalClicks = v))).length =
          (l.filter (fun q => decide (q.additionalClicks = v))).length :=
        (List.Perm.filter _ (List.perm_insertionSort qwLE l)).length_eq
      exact (hsub2.eq_of_length hlen.symm).symm
    exact key _
  · norm_num [detectQuickWinsCore, passesFilter, toQuickWin, defaultThresholds,
      resolveThresholds, emptyThresholds, jsRound, List.insertionSort,
      List.orderedInsert, qwLE, max_def, List.filter, List.map]

end GSC
